import Mathlib

/-!
Verification of the ET₀ Penman-Monteith core of `app.py`.

The two algorithmic methods of `PenmanMonteithCalculator`
(`calculate_solar_radiation`, `penman_monteith_et0`) and the aggregation
method `process_weather_data` are embedded shallowly over `ℝ`.

Python's partial math functions (`math.sqrt`, `math.acos`, and float
division) raise exceptions on domain violations; those operations are
modelled in the `Except MathError` monad, with one error constructor per
raising operation.  Divisions by nonzero numeric literals are modelled by
plain real division, since they can never raise.  Floating point is
idealised as real arithmetic throughout.
-/

noncomputable section

namespace ETO

open Real

/-- Exceptions that the embedded Python code can raise: `sqrtDomain` and
`acosDomain` model `ValueError` from `math.sqrt` / `math.acos`, `divZero`
models `ZeroDivisionError`. -/
inductive MathError where
  | sqrtDomain
  | acosDomain
  | divZero
  deriving DecidableEq

/-- Python `math.sqrt`: raises `ValueError` on negative input. -/
def pysqrt (x : ℝ) : Except MathError ℝ :=
  if x < 0 then .error .sqrtDomain else .ok (Real.sqrt x)

/-- Python `math.acos`: raises `ValueError` outside `[-1, 1]`. -/
def pyacos (x : ℝ) : Except MathError ℝ :=
  if x < -1 ∨ 1 < x then .error .acosDomain else .ok (Real.arccos x)

/-- Python float division: raises `ZeroDivisionError` when the divisor is zero. -/
def pydiv (a b : ℝ) : Except MathError ℝ :=
  if b = 0 then .error .divZero else .ok (a / b)

/-- Python `math.radians`. -/
def radians (x : ℝ) : ℝ := x * π / 180

/-- `calculate_solar_radiation` from `app.py` (lines 182-203), with
Python's raising operations made explicit.  Returns `(Rs, Ra)`. -/
def calculate_solar_radiation (lat day_of_year temp_max temp_min _humidity : ℝ)
    (sunshine_hours : Option ℝ) : Except MathError (ℝ × ℝ) :=
  let lat_rad := radians lat
  let solar_declination := 0.409 * Real.sin (2 * π * day_of_year / 365 - 1.39)
  match pyacos (-(Real.tan lat_rad * Real.tan solar_declination)) with
  | .error e => .error e
  | .ok sunset_hour_angle =>
    let dr := 1 + 0.033 * Real.cos (2 * π * day_of_year / 365)
    let Ra := 24 * 60 / π * 0.082 * dr *
      (sunset_hour_angle * Real.sin lat_rad * Real.sin solar_declination +
        Real.cos lat_rad * Real.cos solar_declination * Real.sin sunset_hour_angle)
    match sunshine_hours with
    | some n =>
      let N := 24 / π * sunset_hour_angle
      if 0 < N then .ok ((0.25 + 0.50 * n / N) * Ra, Ra)
      else
        match pysqrt (temp_max - temp_min) with
        | .error e => .error e
        | .ok s => .ok (0.16 * s * Ra, Ra)
    | none =>
      let temp_range := temp_max - temp_min
      match pysqrt temp_range with
      | .error e => .error e
      | .ok s => .ok (0.16 * s * Ra, Ra)

/-- The raw (unclamped) Penman-Monteith value `numerator / denominator`
computed by `penman_monteith_et0` (lines 205-231 of `app.py`), as total
real arithmetic. -/
def rawEt0 (temp_mean temp_max temp_min humidity wind_speed solar_radiation
    elevation _lat : ℝ) : ℝ :=
  let gamma := 0.665 * (101.3 * ((293 - 0.0065 * elevation) / 293) ^ (5.26 : ℝ))
  let es_max := 0.6108 * Real.exp (17.27 * temp_max / (temp_max + 237.3))
  let es_min := 0.6108 * Real.exp (17.27 * temp_min / (temp_min + 237.3))
  let es := (es_max + es_min) / 2
  let ea := es * humidity / 100
  let delta := 4098 * (0.6108 * Real.exp (17.27 * temp_mean / (temp_mean + 237.3))) /
    ((temp_mean + 237.3) ^ 2)
  let Rn := solar_radiation * 0.77
  let G := (0 : ℝ)
  let numerator := 0.408 * delta * (Rn - G) +
    gamma * 900 / (temp_mean + 273) * wind_speed * (es - ea)
  let denominator := delta + gamma * (1 + 0.34 * wind_speed)
  numerator / denominator

/-- `penman_monteith_et0` from `app.py` (line 233): the raw value clamped
at zero by `max(0, et0)`. -/
def penman_monteith_et0 (temp_mean temp_max temp_min humidity wind_speed
    solar_radiation elevation lat : ℝ) : ℝ :=
  max 0 (rawEt0 temp_mean temp_max temp_min humidity wind_speed solar_radiation
    elevation lat)

/-- `penman_monteith_et0` with Python's division-by-zero behaviour made
explicit, raising in exactly the places where the Python source divides. -/
def penmanRun (temp_mean temp_max temp_min humidity wind_speed solar_radiation
    elevation _lat : ℝ) : Except MathError ℝ :=
  let gamma := 0.665 * (101.3 * ((293 - 0.0065 * elevation) / 293) ^ (5.26 : ℝ))
  match pydiv (17.27 * temp_max) (temp_max + 237.3) with
  | .error e => .error e
  | .ok xmax =>
    let es_max := 0.6108 * Real.exp xmax
    match pydiv (17.27 * temp_min) (temp_min + 237.3) with
    | .error e => .error e
    | .ok xmin =>
      let es_min := 0.6108 * Real.exp xmin
      let es := (es_max + es_min) / 2
      let ea := es * humidity / 100
      match pydiv (17.27 * temp_mean) (temp_mean + 237.3) with
      | .error e => .error e
      | .ok xmean =>
        match pydiv (4098 * (0.6108 * Real.exp xmean)) ((temp_mean + 237.3) ^ 2) with
        | .error e => .error e
        | .ok delta =>
          let Rn := solar_radiation * 0.77
          let G := (0 : ℝ)
          match pydiv (gamma * 900) (temp_mean + 273) with
          | .error e => .error e
          | .ok aero =>
            let numerator := 0.408 * delta * (Rn - G) + aero * wind_speed * (es - ea)
            let denominator := delta + gamma * (1 + 0.34 * wind_speed)
            match pydiv numerator denominator with
            | .error e => .error e
            | .ok et0 => .ok (max 0 et0)

/-! ### Data model for `process_weather_data`

The provider payload fields that the code reads are modelled as
structures; a JSON key that may be absent from a sub-sample is an
`Option`, and the optional `current_condition` top-level key is an
`Option` around the list (the code tests key presence and list length
separately).  The day-of-year that Python derives from the `date` string
via `strptime(...).timetuple().tm_yday` is carried as a field supplied by
the adapter, and the reference date for "today" is a parameter. -/

/-- One sub-daily sample from a forecast day's `hourly` list.  The code
reads `humidity` and `windspeedKmph` only when the keys are present. -/
structure HourSample where
  humidity : Option ℝ
  windspeedKmph : Option ℝ

/-- One forecast-day record from the `weather` list. -/
structure DayWeather where
  date : String
  dayOfYear : ℝ
  maxtempC : ℝ
  mintempC : ℝ
  hourly : List HourSample

/-- The standalone current-conditions reading.  The provider reports an
instantaneous temperature `temp_C`; the code never reads it. -/
structure CurrentCondition where
  temp_C : ℝ
  humidity : ℝ
  windspeedKmph : ℝ

/-- An entry of the `nearest_area` list. -/
structure AreaInfo where
  latitude : ℝ
  longitude : ℝ

/-- The weather payload handed to `process_weather_data`. -/
structure WeatherData where
  nearest_area : List AreaInfo
  current_condition : Option (List CurrentCondition)
  weather : List DayWeather

/-- One output row of `process_weather_data` (the dict appended to
`results`), with the rounded display values the code stores. -/
structure ResultRow where
  date : String
  tempMean : ℝ
  tempMax : ℝ
  tempMin : ℝ
  humidity : ℝ
  windSpeed : ℝ
  solarRadiation : ℝ
  et0 : ℝ

/-- Round-half-to-even on an ideal real, the rounding mode of Python's
builtin `round`. -/
def round2even (y : ℝ) : ℤ :=
  if Int.fract y = 1 / 2 then 2 * round (y / 2) else round y

/-- Python `round(x, 1)` over ideal reals. -/
def pyRound1 (x : ℝ) : ℝ := (round2even (x * 10) : ℝ) / 10

/-- Python `round(x, 2)` over ideal reals. -/
def pyRound2 (x : ℝ) : ℝ := (round2even (x * 100) : ℝ) / 100

/-- The latitude used by `process_weather_data` (lines 243-249): from the
first `nearest_area` entry when present, else the default `35.0`. -/
def latOf (wd : WeatherData) : ℝ :=
  match wd.nearest_area with
  | a :: _ => a.latitude
  | [] => 35.0

/-- The current-conditions ("today") row built at lines 252-291: min/max
and their mean come from the first `weather` day, humidity and wind speed
from the `current_condition` reading (wind converted from km/h). -/
def todayRow (lat : ℝ) (todayDate : String) (todayDoy : ℝ)
    (current : CurrentCondition) (today_weather : DayWeather) :
    Except MathError ResultRow :=
  let temp_max := today_weather.maxtempC
  let temp_min := today_weather.mintempC
  let temp_mean := (temp_max + temp_min) / 2
  let humidity := current.humidity
  let wind_speed := current.windspeedKmph * 0.277778
  match calculate_solar_radiation lat todayDoy temp_max temp_min humidity none with
  | .error e => .error e
  | .ok (solar_rad, _ra) =>
    match penmanRun temp_mean temp_max temp_min humidity wind_speed solar_rad 0 lat with
    | .error e => .error e
    | .ok et0_current =>
      .ok { date := todayDate, tempMean := pyRound1 temp_mean,
            tempMax := pyRound1 temp_max, tempMin := pyRound1 temp_min,
            humidity := pyRound1 humidity, windSpeed := pyRound1 wind_speed,
            solarRadiation := pyRound2 solar_rad, et0 := pyRound2 et0_current }

/-- The humidity/wind aggregation of the forecast loop (lines 307-316):
arithmetic mean of the samples that carry the field, defaults `50` and
`2` when the `hourly` list is missing/empty or no sample carries the
field; wind is converted from km/h sample by sample. -/
def forecastHumWind (day : DayWeather) : ℝ × ℝ :=
  match day.hourly with
  | [] => (50, 2)
  | _ :: _ =>
    let humidity_values := day.hourly.filterMap HourSample.humidity
    let wind_values :=
      (day.hourly.filterMap HourSample.windspeedKmph).map (fun w => w * 0.277778)
    (if humidity_values.isEmpty then 50
      else humidity_values.sum / (humidity_values.length : ℝ),
     if wind_values.isEmpty then 2
      else wind_values.sum / (wind_values.length : ℝ))

/-- One iteration of the forecast loop (lines 294-334). -/
def forecastRow (lat : ℝ) (day : DayWeather) : Except MathError ResultRow :=
  let temp_max := day.maxtempC
  let temp_min := day.mintempC
  let temp_mean := (temp_max + temp_min) / 2
  let humidity := (forecastHumWind day).1
  let wind_speed := (forecastHumWind day).2
  match calculate_solar_radiation lat day.dayOfYear temp_max temp_min humidity none with
  | .error e => .error e
  | .ok (solar_rad, _ra) =>
    match penmanRun temp_mean temp_max temp_min humidity wind_speed solar_rad 0 lat with
    | .error e => .error e
    | .ok et0_forecast =>
      .ok { date := day.date, tempMean := pyRound1 temp_mean,
            tempMax := pyRound1 temp_max, tempMin := pyRound1 temp_min,
            humidity := pyRound1 humidity, windSpeed := pyRound1 wind_speed,
            solarRadiation := pyRound2 solar_rad, et0 := pyRound2 et0_forecast }

/-- The forecast loop over a list of days; a raised exception aborts the
whole computation, as in Python. -/
def forecastRows (lat : ℝ) : List DayWeather → Except MathError (List ResultRow)
  | [] => .ok []
  | d :: rest =>
    match forecastRow lat d with
    | .error e => .error e
    | .ok r =>
      match forecastRows lat rest with
      | .error e => .error e
      | .ok rs => .ok (r :: rs)

/-- `process_weather_data` (lines 235-336).  The early `return results`
for a payload without a `weather` key is subsumed by `weather = []`
(both paths yield the empty result).  The loop's skip of index `0`
tests only the presence of the `current_condition` key, while the
today-block additionally requires the list to be nonempty and `weather`
to be nonempty — both checks are kept distinct here. -/
def process_weather_data (todayDate : String) (todayDoy : ℝ) (wd : WeatherData) :
    Except MathError (List ResultRow) :=
  let lat := latOf wd
  let todayRows : Except MathError (List ResultRow) :=
    match wd.current_condition with
    | some (current :: _) =>
      match wd.weather with
      | today_weather :: _ =>
        match todayRow lat todayDate todayDoy current today_weather with
        | .error e => .error e
        | .ok r => .ok [r]
      | [] => .ok []
    | _ => .ok []
  match todayRows with
  | .error e => .error e
  | .ok tr =>
    let loopDays :=
      match wd.current_condition with
      | some _ => (wd.weather.take 14).drop 1
      | none => wd.weather.take 14
    match forecastRows lat loopDays with
    | .error e => .error e
    | .ok fr => .ok (tr ++ fr)

/-! ### Definitions transcribed from the specification text

These two definitions follow the spec's words, not the source; they exist
only to be compared against the source-derived definitions above. -/

/-- Step C psychrometric constant as written in the spec:
`γ = 0.665e-3 · 101.3 · ((293 − 0.0065·elevation)/293)^5.26`. -/
def spec_gamma (elevation : ℝ) : ℝ :=
  0.665e-3 * 101.3 * ((293 - 0.0065 * elevation) / 293) ^ (5.26 : ℝ)

/-- Step A extraterrestrial radiation as written in the spec. -/
def spec_stepA_Ra (phi J : ℝ) : ℝ :=
  let phi_rad := phi * π / 180
  let delta := 0.409 * Real.sin (2 * π * J / 365 - 1.39)
  let omega_s := Real.arccos (-(Real.tan phi_rad * Real.tan delta))
  let d_r := 1 + 0.033 * Real.cos (2 * π * J / 365)
  24 * 60 / π * 0.082 * d_r *
    (omega_s * Real.sin phi_rad * Real.sin delta +
      Real.cos phi_rad * Real.cos delta * Real.sin omega_s)

/-! ### Elementary numeric bounds toolkit

Rigorous rational enclosures for the transcendental values appearing in
the concrete scenarios, built from Mathlib's Taylor remainder bounds. -/

lemma exp_ge_taylor (a : ℝ) (h0 : 0 ≤ a) :
    1 + a + a ^ 2 / 2 + a ^ 3 / 6 + a ^ 4 / 24 ≤ Real.exp a := by
  have h := Real.sum_le_exp_of_nonneg h0 5
  rw [Finset.sum_range_succ, Finset.sum_range_succ, Finset.sum_range_succ,
    Finset.sum_range_succ, Finset.sum_range_succ, Finset.sum_range_zero] at h
  norm_num [Nat.factorial] at h
  linarith

lemma exp_le_taylor (a : ℝ) (h0 : 0 ≤ a) (h1 : a ≤ 1) :
    Real.exp a ≤ 1 + a + a ^ 2 / 2 + a ^ 3 / 6 + a ^ 4 / 24 + a ^ 5 / 100 := by
  have h := Real.exp_bound' h0 h1 (n := 5) (by norm_num)
  rw [Finset.sum_range_succ, Finset.sum_range_succ, Finset.sum_range_succ,
    Finset.sum_range_succ, Finset.sum_range_succ, Finset.sum_range_zero] at h
  norm_num [Nat.factorial] at h
  linarith

lemma exp_double_bounds (t lo hi : ℝ) (h0 : 0 ≤ lo) (hlo : lo ≤ Real.exp t)
    (hhi : Real.exp t ≤ hi) :
    lo * lo ≤ Real.exp (t + t) ∧ Real.exp (t + t) ≤ hi * hi := by
  rw [Real.exp_add]
  constructor
  · exact mul_le_mul hlo hlo h0 (le_trans h0 hlo)
  · exact mul_le_mul hhi hhi (le_trans h0 hlo) (le_trans (le_trans h0 hlo) hhi)

lemma abs_pow_four (a : ℝ) : |a| ^ 4 = a ^ 4 := by
  rw [← abs_pow]
  exact abs_of_nonneg (by positivity)

lemma cos_ge_taylor (a : ℝ) (h : |a| ≤ 1) :
    1 - a ^ 2 / 2 - a ^ 4 * (5 / 96) ≤ Real.cos a := by
  have h2 := Real.cos_bound h
  rw [abs_pow_four, abs_sub_le_iff] at h2
  linarith [h2.2]

lemma cos_le_taylor (a : ℝ) (h : |a| ≤ 1) :
    Real.cos a ≤ 1 - a ^ 2 / 2 + a ^ 4 * (5 / 96) := by
  have h2 := Real.cos_bound h
  rw [abs_pow_four, abs_sub_le_iff] at h2
  linarith [h2.1]

lemma sin_ge_taylor (a : ℝ) (h0 : 0 ≤ a) (h1 : a ≤ 1) :
    a - a ^ 3 / 6 - a ^ 4 * (5 / 96) ≤ Real.sin a := by
  have h2 := Real.sin_bound (by rw [abs_of_nonneg h0]; exact h1)
  rw [abs_pow_four, abs_sub_le_iff] at h2
  linarith [h2.2]

lemma sin_le_taylor (a : ℝ) (h0 : 0 ≤ a) (h1 : a ≤ 1) :
    Real.sin a ≤ a - a ^ 3 / 6 + a ^ 4 * (5 / 96) := by
  have h2 := Real.sin_bound (by rw [abs_of_nonneg h0]; exact h1)
  rw [abs_pow_four, abs_sub_le_iff] at h2
  linarith [h2.1]

lemma arccos_le_of_cos_le (x b : ℝ) (hx1 : -1 ≤ x) (hx2 : x ≤ 1)
    (hb0 : 0 ≤ b) (hbpi : b ≤ π) (h : Real.cos b ≤ x) : Real.arccos x ≤ b := by
  by_contra hlt
  push_neg at hlt
  have h1 : Real.cos (Real.arccos x) < Real.cos b :=
    Real.strictAntiOn_cos ⟨hb0, hbpi⟩ ⟨Real.arccos_nonneg x, Real.arccos_le_pi x⟩ hlt
  rw [Real.cos_arccos hx1 hx2] at h1
  linarith

lemma le_arccos_of_le_cos (x a : ℝ) (hx1 : -1 ≤ x) (hx2 : x ≤ 1)
    (ha0 : 0 ≤ a) (hapi : a ≤ π) (h : x ≤ Real.cos a) : a ≤ Real.arccos x := by
  by_contra hlt
  push_neg at hlt
  have h1 : Real.cos a < Real.cos (Real.arccos x) :=
    Real.strictAntiOn_cos ⟨Real.arccos_nonneg x, Real.arccos_le_pi x⟩ ⟨ha0, hapi⟩ hlt
  rw [Real.cos_arccos hx1 hx2] at h1
  linarith

lemma sqrt15_bounds : 3.8729 ≤ Real.sqrt 15 ∧ Real.sqrt 15 ≤ 3.8730 := by
  constructor
  · rw [Real.le_sqrt (by norm_num) (by norm_num)]
    norm_num
  · have : Real.sqrt 15 < 3.8730 := by
      rw [Real.sqrt_lt' (by norm_num)]
      norm_num
    linarith

/-! ### Concrete enclosures for the worked scenario

The end-to-end example uses latitude `35`, day-of-year `172`,
`temp_max = 30`, `temp_min = 15`, and the wind-monotonicity
counterexample reuses the same temperatures.  The exponential arguments
reduce to the exact rationals `157/81`, `1727/1682` and `5181/3464`. -/

lemma exp_e1_bounds : (6.9022 : ℝ) ≤ Real.exp (157 / 81) ∧ Real.exp (157 / 81) ≤ 6.9849 := by
  have h0 : (0 : ℝ) ≤ 157 / 162 := by norm_num
  have hlo := exp_ge_taylor (157 / 162) h0
  have hhi := exp_le_taylor (157 / 162) h0 (by norm_num)
  have hd := exp_double_bounds (157 / 162)
    (1 + 157 / 162 + (157 / 162) ^ 2 / 2 + (157 / 162) ^ 3 / 6 + (157 / 162) ^ 4 / 24)
    (1 + 157 / 162 + (157 / 162) ^ 2 / 2 + (157 / 162) ^ 3 / 6 + (157 / 162) ^ 4 / 24 +
      (157 / 162) ^ 5 / 100)
    (by norm_num) hlo hhi
  have he : (157 : ℝ) / 81 = 157 / 162 + 157 / 162 := by norm_num
  rw [he]
  exact ⟨le_trans (by norm_num) hd.1, le_trans hd.2 (by norm_num)⟩

lemma exp_e2_bounds : (2.7909 : ℝ) ≤ Real.exp (1727 / 1682) ∧
    Real.exp (1727 / 1682) ≤ 2.7931 := by
  have h0 : (0 : ℝ) ≤ 1727 / 3364 := by norm_num
  have hlo := exp_ge_taylor (1727 / 3364) h0
  have hhi := exp_le_taylor (1727 / 3364) h0 (by norm_num)
  have hd := exp_double_bounds (1727 / 3364)
    (1 + 1727 / 3364 + (1727 / 3364) ^ 2 / 2 + (1727 / 3364) ^ 3 / 6 + (1727 / 3364) ^ 4 / 24)
    (1 + 1727 / 3364 + (1727 / 3364) ^ 2 / 2 + (1727 / 3364) ^ 3 / 6 + (1727 / 3364) ^ 4 / 24 +
      (1727 / 3364) ^ 5 / 100)
    (by norm_num) hlo hhi
  have he : (1727 : ℝ) / 1682 = 1727 / 3364 + 1727 / 3364 := by norm_num
  rw [he]
  exact ⟨le_trans (by norm_num) hd.1, le_trans hd.2 (by norm_num)⟩

lemma exp_e3_bounds : (4.4529 : ℝ) ≤ Real.exp (5181 / 3464) ∧
    Real.exp (5181 / 3464) ≤ 4.4711 := by
  have h0 : (0 : ℝ) ≤ 5181 / 6928 := by norm_num
  have hlo := exp_ge_taylor (5181 / 6928) h0
  have hhi := exp_le_taylor (5181 / 6928) h0 (by norm_num)
  have hd := exp_double_bounds (5181 / 6928)
    (1 + 5181 / 6928 + (5181 / 6928) ^ 2 / 2 + (5181 / 6928) ^ 3 / 6 + (5181 / 6928) ^ 4 / 24)
    (1 + 5181 / 6928 + (5181 / 6928) ^ 2 / 2 + (5181 / 6928) ^ 3 / 6 + (5181 / 6928) ^ 4 / 24 +
      (5181 / 6928) ^ 5 / 100)
    (by norm_num) hlo hhi
  have he : (5181 : ℝ) / 3464 = 5181 / 6928 + 5181 / 6928 := by norm_num
  rw [he]
  exact ⟨le_trans (by norm_num) hd.1, le_trans hd.2 (by norm_num)⟩

/-- Bounds for the `es = (es_max + es_min)/2` value at `temp_max = 30`,
`temp_min = 15`. -/
lemma es3015_bounds :
    (2.9602 : ℝ) ≤ (0.6108 * Real.exp (17.27 * 30 / (30 + 237.3)) +
      0.6108 * Real.exp (17.27 * 15 / (15 + 237.3))) / 2 ∧
    (0.6108 * Real.exp (17.27 * 30 / (30 + 237.3)) +
      0.6108 * Real.exp (17.27 * 15 / (15 + 237.3))) / 2 ≤ 2.9863 := by
  rw [show (17.27 * 30 / (30 + 237.3) : ℝ) = 157 / 81 by norm_num,
    show (17.27 * 15 / (15 + 237.3) : ℝ) = 1727 / 1682 by norm_num]
  obtain ⟨h1, h2⟩ := exp_e1_bounds
  obtain ⟨h3, h4⟩ := exp_e2_bounds
  constructor <;> nlinarith

/-- Bounds for the `delta` value at `temp_mean = 22.5`. -/
lemma delta225_bounds :
    (0.16513 : ℝ) ≤ 4098 * (0.6108 * Real.exp (17.27 * 22.5 / (22.5 + 237.3))) /
      ((22.5 + 237.3) ^ 2) ∧
    4098 * (0.6108 * Real.exp (17.27 * 22.5 / (22.5 + 237.3))) /
      ((22.5 + 237.3) ^ 2) ≤ 0.16581 := by
  rw [show (17.27 * 22.5 / (22.5 + 237.3) : ℝ) = 5181 / 3464 by norm_num]
  obtain ⟨h1, h2⟩ := exp_e3_bounds
  rw [div_le_iff₀ (by norm_num), le_div_iff₀ (by norm_num)] at *
  constructor <;> nlinarith

/-- At elevation `0` the code's psychrometric constant evaluates to
`0.665 · 101.3 = 67.3645` exactly. -/
lemma gamma0_eq :
    (0.665 : ℝ) * (101.3 * ((293 - 0.0065 * 0) / 293) ^ (5.26 : ℝ)) = 67.3645 := by
  rw [show ((293 - 0.0065 * 0) / 293 : ℝ) = 1 by norm_num, Real.one_rpow]
  norm_num

/-- The solar declination expression at day-of-year `172`. -/
def decl172 : ℝ := 0.409 * Real.sin (2 * π * 172 / 365 - 1.39)

/-- The sunset hour angle at latitude `35`, day-of-year `172`. -/
def ws3517 : ℝ := Real.arccos (-(Real.tan (radians 35) * Real.tan decl172))

lemma radians35_bounds : (0.610865 : ℝ) ≤ radians 35 ∧ radians 35 ≤ 0.610866 := by
  unfold radians
  constructor <;> linarith [Real.pi_gt_d6, Real.pi_lt_d6]

lemma radians35_le_pi_div_two : radians 35 ≤ π / 2 := by
  have h := radians35_bounds.2
  linarith [Real.pi_gt_d6]

lemma sin_radians35_bounds :
    (0.5656 : ℝ) ≤ Real.sin (radians 35) ∧ Real.sin (radians 35) ≤ 0.5802 := by
  obtain ⟨h1, h2⟩ := radians35_bounds
  have hpi := Real.pi_gt_d6
  constructor
  · have hm : Real.sin 0.610865 ≤ Real.sin (radians 35) :=
      Real.sin_le_sin_of_le_of_le_pi_div_two (by linarith) radians35_le_pi_div_two h1
    have ht := sin_ge_taylor 0.610865 (by norm_num) (by norm_num)
    calc (0.5656 : ℝ) ≤ 0.610865 - 0.610865 ^ 3 / 6 - 0.610865 ^ 4 * (5 / 96) := by norm_num
      _ ≤ Real.sin 0.610865 := ht
      _ ≤ _ := hm
  · have hm : Real.sin (radians 35) ≤ Real.sin 0.610866 :=
      Real.sin_le_sin_of_le_of_le_pi_div_two (by linarith) (by linarith) h2
    have ht := sin_le_taylor 0.610866 (by norm_num) (by norm_num)
    calc Real.sin (radians 35) ≤ Real.sin 0.610866 := hm
      _ ≤ 0.610866 - 0.610866 ^ 3 / 6 + 0.610866 ^ 4 * (5 / 96) := ht
      _ ≤ 0.5802 := by norm_num

lemma cos_radians35_bounds :
    (0.8061 : ℝ) ≤ Real.cos (radians 35) ∧ Real.cos (radians 35) ≤ 0.8207 := by
  obtain ⟨h1, h2⟩ := radians35_bounds
  have hpi := Real.pi_gt_d6
  constructor
  · have hm : Real.cos 0.610866 ≤ Real.cos (radians 35) :=
      Real.cos_le_cos_of_nonneg_of_le_pi (by linarith) (by linarith) h2
    have ht := cos_ge_taylor 0.610866 (by rw [abs_of_nonneg] <;> norm_num)
    calc (0.8061 : ℝ) ≤ 1 - 0.610866 ^ 2 / 2 - 0.610866 ^ 4 * (5 / 96) := by norm_num
      _ ≤ Real.cos 0.610866 := ht
      _ ≤ _ := hm
  · have hm : Real.cos (radians 35) ≤ Real.cos 0.610865 :=
      Real.cos_le_cos_of_nonneg_of_le_pi (by norm_num) (by linarith) h1
    have ht := cos_le_taylor 0.610865 (by rw [abs_of_nonneg] <;> norm_num)
    calc Real.cos (radians 35) ≤ Real.cos 0.610865 := hm
      _ ≤ 1 - 0.610865 ^ 2 / 2 + 0.610865 ^ 4 * (5 / 96) := ht
      _ ≤ 0.8207 := by norm_num

lemma x0_bounds : (1.5708428 : ℝ) ≤ 2 * π * 172 / 365 - 1.39 ∧
    2 * π * 172 / 365 - 1.39 ≤ 1.5708439 := by
  constructor <;> linarith [Real.pi_gt_d6, Real.pi_lt_d6]

lemma sin_x0_bounds : (0.999999 : ℝ) ≤ Real.sin (2 * π * 172 / 365 - 1.39) ∧
    Real.sin (2 * π * 172 / 365 - 1.39) ≤ 1 := by
  obtain ⟨h1, h2⟩ := x0_bounds
  have hpl := Real.pi_gt_d6
  have hpu := Real.pi_lt_d6
  refine ⟨?_, Real.sin_le_one _⟩
  have hid : Real.cos (π / 2 - (2 * π * 172 / 365 - 1.39)) =
      Real.sin (2 * π * 172 / 365 - 1.39) :=
    Real.sin_pi_div_two_sub _ ▸ Real.cos_pi_div_two_sub _
  rw [← hid]
  have htl : -(1 / 10000 : ℝ) ≤ π / 2 - (2 * π * 172 / 365 - 1.39) := by linarith
  have htu : π / 2 - (2 * π * 172 / 365 - 1.39) ≤ (1 / 10000 : ℝ) := by linarith
  have habs : |π / 2 - (2 * π * 172 / 365 - 1.39)| ≤ 1 := by
    rw [abs_le]; exact ⟨by linarith, by linarith⟩
  have hsq : (π / 2 - (2 * π * 172 / 365 - 1.39)) ^ 2 ≤ (1 / 100000000 : ℝ) := by nlinarith
  have hq : (π / 2 - (2 * π * 172 / 365 - 1.39)) ^ 4 ≤ (1 / 100000000 : ℝ) := by
    nlinarith [hsq, sq_nonneg (π / 2 - (2 * π * 172 / 365 - 1.39))]
  have := cos_ge_taylor (π / 2 - (2 * π * 172 / 365 - 1.39)) habs
  linarith

lemma decl172_bounds : (0.408999 : ℝ) ≤ decl172 ∧ decl172 ≤ 0.409 := by
  obtain ⟨h1, h2⟩ := sin_x0_bounds
  unfold decl172
  constructor <;> nlinarith

lemma sin_decl172_bounds :
    (0.3961 : ℝ) ≤ Real.sin decl172 ∧ Real.sin decl172 ≤ 0.3991 := by
  obtain ⟨h1, h2⟩ := decl172_bounds
  have hpi := Real.pi_gt_d6
  constructor
  · have hm : Real.sin 0.408999 ≤ Real.sin decl172 :=
      Real.sin_le_sin_of_le_of_le_pi_div_two (by linarith) (by linarith) h1
    have ht := sin_ge_taylor 0.408999 (by norm_num) (by norm_num)
    calc (0.3961 : ℝ) ≤ 0.408999 - 0.408999 ^ 3 / 6 - 0.408999 ^ 4 * (5 / 96) := by norm_num
      _ ≤ Real.sin 0.408999 := ht
      _ ≤ _ := hm
  · have hm : Real.sin decl172 ≤ Real.sin 0.409 :=
      Real.sin_le_sin_of_le_of_le_pi_div_two (by linarith) (by linarith) h2
    have ht := sin_le_taylor 0.409 (by norm_num) (by norm_num)
    calc Real.sin decl172 ≤ Real.sin 0.409 := hm
      _ ≤ 0.409 - 0.409 ^ 3 / 6 + 0.409 ^ 4 * (5 / 96) := ht
      _ ≤ 0.3991 := by norm_num

lemma cos_decl172_bounds :
    (0.9149 : ℝ) ≤ Real.cos decl172 ∧ Real.cos decl172 ≤ 0.9179 := by
  obtain ⟨h1, h2⟩ := decl172_bounds
  have hpi := Real.pi_gt_d6
  constructor
  · have hm : Real.cos 0.409 ≤ Real.cos decl172 :=
      Real.cos_le_cos_of_nonneg_of_le_pi (by linarith) (by linarith) h2
    have ht := cos_ge_taylor 0.409 (by rw [abs_of_nonneg] <;> norm_num)
    calc (0.9149 : ℝ) ≤ 1 - 0.409 ^ 2 / 2 - 0.409 ^ 4 * (5 / 96) := by norm_num
      _ ≤ Real.cos 0.409 := ht
      _ ≤ _ := hm
  · have hm : Real.cos decl172 ≤ Real.cos 0.408999 :=
      Real.cos_le_cos_of_nonneg_of_le_pi (by norm_num) (by linarith) h1
    have ht := cos_le_taylor 0.408999 (by rw [abs_of_nonneg] <;> norm_num)
    calc Real.cos decl172 ≤ Real.cos 0.408999 := hm
      _ ≤ 1 - 0.408999 ^ 2 / 2 + 0.408999 ^ 4 * (5 / 96) := ht
      _ ≤ 0.9179 := by norm_num

lemma tan_radians35_bounds :
    (0.689 : ℝ) ≤ Real.tan (radians 35) ∧ Real.tan (radians 35) ≤ 0.7198 := by
  obtain ⟨hs1, hs2⟩ := sin_radians35_bounds
  obtain ⟨hc1, hc2⟩ := cos_radians35_bounds
  have hcpos : (0 : ℝ) < Real.cos (radians 35) := by linarith
  rw [Real.tan_eq_sin_div_cos]
  constructor
  · rw [le_div_iff₀ hcpos]; nlinarith
  · rw [div_le_iff₀ hcpos]; nlinarith

lemma tan_decl172_bounds :
    (0.4315 : ℝ) ≤ Real.tan decl172 ∧ Real.tan decl172 ≤ 0.4363 := by
  obtain ⟨hs1, hs2⟩ := sin_decl172_bounds
  obtain ⟨hc1, hc2⟩ := cos_decl172_bounds
  have hcpos : (0 : ℝ) < Real.cos decl172 := by linarith
  rw [Real.tan_eq_sin_div_cos]
  constructor
  · rw [le_div_iff₀ hcpos]; nlinarith
  · rw [div_le_iff₀ hcpos]; nlinarith

lemma prod3517_bounds :
    (0.2973 : ℝ) ≤ Real.tan (radians 35) * Real.tan decl172 ∧
    Real.tan (radians 35) * Real.tan decl172 ≤ 0.3141 := by
  obtain ⟨h1, h2⟩ := tan_radians35_bounds
  obtain ⟨h3, h4⟩ := tan_decl172_bounds
  constructor <;> nlinarith

lemma arg3517_mem : (-1 : ℝ) ≤ -(Real.tan (radians 35) * Real.tan decl172) ∧
    -(Real.tan (radians 35) * Real.tan decl172) ≤ 1 := by
  obtain ⟨h1, h2⟩ := prod3517_bounds
  constructor <;> linarith

lemma cos_186_ge : (-0.2856 : ℝ) ≤ Real.cos 1.86 := by
  have hpl := Real.pi_gt_d6
  have hpu := Real.pi_lt_d6
  have hid : Real.sin (π / 2 - 1.86) = Real.cos 1.86 := Real.sin_pi_div_two_sub 1.86
  rw [← hid]
  have hm : Real.sin (-0.289204 : ℝ) ≤ Real.sin (π / 2 - 1.86) := by
    apply Real.sin_le_sin_of_le_of_le_pi_div_two (by linarith) (by linarith) (by linarith)
  have hneg : Real.sin (-0.289204 : ℝ) = -Real.sin 0.289204 := by
    rw [show (-0.289204 : ℝ) = -(0.289204 : ℝ) by norm_num, Real.sin_neg]
  have ht := sin_le_taylor 0.289204 (by norm_num) (by norm_num)
  rw [hneg] at hm
  nlinarith

lemma cos_191_le : Real.cos 1.91 ≤ -0.332 := by
  have hpl := Real.pi_gt_d6
  have hpu := Real.pi_lt_d6
  have hid : Real.sin (π / 2 - 1.91) = Real.cos 1.91 := Real.sin_pi_div_two_sub 1.91
  rw [← hid]
  have hm : Real.sin (π / 2 - 1.91) ≤ Real.sin (-0.3392035 : ℝ) := by
    apply Real.sin_le_sin_of_le_of_le_pi_div_two (by linarith) (by linarith) (by linarith)
  have hneg : Real.sin (-0.3392035 : ℝ) = -Real.sin 0.3392035 := by
    rw [show (-0.3392035 : ℝ) = -(0.3392035 : ℝ) by norm_num, Real.sin_neg]
  have ht := sin_ge_taylor 0.3392035 (by norm_num) (by norm_num)
  rw [hneg] at hm
  nlinarith

lemma ws3517_bounds : (1.86 : ℝ) ≤ ws3517 ∧ ws3517 ≤ 1.91 := by
  obtain ⟨ha1, ha2⟩ := arg3517_mem
  obtain ⟨hp1, hp2⟩ := prod3517_bounds
  have hpl := Real.pi_gt_d6
  unfold ws3517
  constructor
  · apply le_arccos_of_le_cos _ _ ha1 ha2 (by norm_num) (by linarith)
    have := cos_186_ge
    linarith
  · apply arccos_le_of_cos_le _ _ ha1 ha2 (by norm_num) (by linarith)
    have := cos_191_le
    linarith

lemma sin_ws3517_bounds :
    (0.9417 : ℝ) ≤ Real.sin ws3517 ∧ Real.sin ws3517 ≤ 0.9586 := by
  obtain ⟨hw1, hw2⟩ := ws3517_bounds
  have hpl := Real.pi_gt_d6
  have hpu := Real.pi_lt_d6
  have hid : Real.cos (π / 2 - ws3517) = Real.sin ws3517 := Real.cos_pi_div_two_sub ws3517
  rw [← hid]
  have heven : Real.cos (π / 2 - ws3517) = Real.cos (ws3517 - π / 2) := by
    rw [show ws3517 - π / 2 = -(π / 2 - ws3517) by ring, Real.cos_neg]
  rw [heven]
  have hu1 : (0.2892035 : ℝ) ≤ ws3517 - π / 2 := by linarith
  have hu2 : ws3517 - π / 2 ≤ (0.339204 : ℝ) := by linarith
  constructor
  · have hm : Real.cos (0.339204 : ℝ) ≤ Real.cos (ws3517 - π / 2) :=
      Real.cos_le_cos_of_nonneg_of_le_pi (by linarith) (by linarith) hu2
    have ht := cos_ge_taylor 0.339204 (by rw [abs_of_nonneg] <;> norm_num)
    calc (0.9417 : ℝ) ≤ 1 - 0.339204 ^ 2 / 2 - 0.339204 ^ 4 * (5 / 96) := by norm_num
      _ ≤ Real.cos 0.339204 := ht
      _ ≤ _ := hm
  · have hm : Real.cos (ws3517 - π / 2) ≤ Real.cos (0.2892035 : ℝ) :=
      Real.cos_le_cos_of_nonneg_of_le_pi (by norm_num) (by linarith) hu1
    have ht := cos_le_taylor 0.2892035 (by rw [abs_of_nonneg] <;> norm_num)
    calc Real.cos (ws3517 - π / 2) ≤ Real.cos 0.2892035 := hm
      _ ≤ 1 - 0.2892035 ^ 2 / 2 + 0.2892035 ^ 4 * (5 / 96) := ht
      _ ≤ 0.9586 := by norm_num

lemma cos_y172_bounds : (-0.98373 : ℝ) ≤ Real.cos (2 * π * 172 / 365) ∧
    Real.cos (2 * π * 172 / 365) ≤ -0.9836 := by
  have hpl := Real.pi_gt_d6
  have hpu := Real.pi_lt_d6
  have hy1 : (2.9608428 : ℝ) ≤ 2 * π * 172 / 365 := by linarith
  have hy2 : 2 * π * 172 / 365 ≤ (2.9608440 : ℝ) := by linarith
  have hid : Real.cos (π - 2 * π * 172 / 365) = -Real.cos (2 * π * 172 / 365) :=
    Real.cos_pi_sub _
  have hw1 : (0.180748 : ℝ) ≤ π - 2 * π * 172 / 365 := by linarith
  have hw2 : π - 2 * π * 172 / 365 ≤ (0.1807502 : ℝ) := by linarith
  have hclo : (0.98360 : ℝ) ≤ Real.cos (π - 2 * π * 172 / 365) := by
    have hm : Real.cos (0.1807502 : ℝ) ≤ Real.cos (π - 2 * π * 172 / 365) :=
      Real.cos_le_cos_of_nonneg_of_le_pi (by linarith) (by linarith) hw2
    have ht := cos_ge_taylor 0.1807502 (by rw [abs_of_nonneg] <;> norm_num)
    calc (0.98360 : ℝ) ≤ 1 - 0.1807502 ^ 2 / 2 - 0.1807502 ^ 4 * (5 / 96) := by norm_num
      _ ≤ Real.cos 0.1807502 := ht
      _ ≤ _ := hm
  have hchi : Real.cos (π - 2 * π * 172 / 365) ≤ 0.98373 := by
    have hm : Real.cos (π - 2 * π * 172 / 365) ≤ Real.cos (0.180748 : ℝ) :=
      Real.cos_le_cos_of_nonneg_of_le_pi (by norm_num) (by linarith) hw1
    have ht := cos_le_taylor 0.180748 (by rw [abs_of_nonneg] <;> norm_num)
    calc Real.cos (π - 2 * π * 172 / 365) ≤ Real.cos 0.180748 := hm
      _ ≤ 1 - 0.180748 ^ 2 / 2 + 0.180748 ^ 4 * (5 / 96) := ht
      _ ≤ 0.98373 := by norm_num
  constructor <;> linarith

lemma dr172_bounds : (0.96753 : ℝ) ≤ 1 + 0.033 * Real.cos (2 * π * 172 / 365) ∧
    1 + 0.033 * Real.cos (2 * π * 172 / 365) ≤ 0.96755 := by
  obtain ⟨h1, h2⟩ := cos_y172_bounds
  constructor <;> nlinarith

/-- The extraterrestrial radiation value produced by the code at
latitude `35`, day-of-year `172`.  Same expression tree as the `Ra`
local of `calculate_solar_radiation` after substitution. -/
def ra3517 : ℝ :=
  24 * 60 / π * 0.082 * (1 + 0.033 * Real.cos (2 * π * 172 / 365)) *
    (ws3517 * Real.sin (radians 35) * Real.sin decl172 +
      Real.cos (radians 35) * Real.cos decl172 * Real.sin ws3517)

set_option maxHeartbeats 1600000 in
lemma ra3517_bounds : (40.40 : ℝ) ≤ ra3517 ∧ ra3517 ≤ 42.35 := by
  obtain ⟨hw1, hw2⟩ := ws3517_bounds
  obtain ⟨hs1, hs2⟩ := sin_radians35_bounds
  obtain ⟨hc1, hc2⟩ := cos_radians35_bounds
  obtain ⟨hd1, hd2⟩ := sin_decl172_bounds
  obtain ⟨he1, he2⟩ := cos_decl172_bounds
  obtain ⟨hf1, hf2⟩ := sin_ws3517_bounds
  obtain ⟨hg1, hg2⟩ := dr172_bounds
  have hc1l : (458.366 : ℝ) ≤ 24 * 60 / π := by
    rw [le_div_iff₀ Real.pi_pos]; nlinarith [Real.pi_lt_d6]
  have hc1u : 24 * 60 / π ≤ (458.367 : ℝ) := by
    rw [div_le_iff₀ Real.pi_pos]; nlinarith [Real.pi_gt_d6]
  have ha1 : (1.86 * 0.5656 : ℝ) ≤ ws3517 * Real.sin (radians 35) :=
    mul_le_mul hw1 hs1 (by norm_num) (by linarith)
  have ha2 : ws3517 * Real.sin (radians 35) ≤ (1.91 * 0.5802 : ℝ) :=
    mul_le_mul hw2 hs2 (by linarith) (by norm_num)
  have hb1 : (1.86 * 0.5656 * 0.3961 : ℝ) ≤ ws3517 * Real.sin (radians 35) * Real.sin decl172 :=
    mul_le_mul ha1 hd1 (by norm_num) (by linarith)
  have hb2 : ws3517 * Real.sin (radians 35) * Real.sin decl172 ≤ (1.91 * 0.5802 * 0.3991 : ℝ) :=
    mul_le_mul ha2 hd2 (by linarith) (by norm_num)
  have hp1 : (0.8061 * 0.9149 : ℝ) ≤ Real.cos (radians 35) * Real.cos decl172 :=
    mul_le_mul hc1 he1 (by norm_num) (by linarith)
  have hp2 : Real.cos (radians 35) * Real.cos decl172 ≤ (0.8207 * 0.9179 : ℝ) :=
    mul_le_mul hc2 he2 (by linarith) (by norm_num)
  have hq1 : (0.8061 * 0.9149 * 0.9417 : ℝ) ≤
      Real.cos (radians 35) * Real.cos decl172 * Real.sin ws3517 :=
    mul_le_mul hp1 hf1 (by norm_num) (by linarith)
  have hq2 : Real.cos (radians 35) * Real.cos decl172 * Real.sin ws3517 ≤
      (0.8207 * 0.9179 * 0.9586 : ℝ) :=
    mul_le_mul hp2 hf2 (by linarith) (by norm_num)
  have hT1 : (1.1112 : ℝ) ≤ ws3517 * Real.sin (radians 35) * Real.sin decl172 +
      Real.cos (radians 35) * Real.cos decl172 * Real.sin ws3517 := by linarith
  have hT2 : ws3517 * Real.sin (radians 35) * Real.sin decl172 +
      Real.cos (radians 35) * Real.cos decl172 * Real.sin ws3517 ≤ (1.1645 : ℝ) := by linarith
  have hc2l : (37.586 : ℝ) ≤ 24 * 60 / π * 0.082 := by linarith
  have hc2u : 24 * 60 / π * 0.082 ≤ (37.5862 : ℝ) := by linarith
  have hc3l : (36.3655 : ℝ) ≤ 24 * 60 / π * 0.082 * (1 + 0.033 * Real.cos (2 * π * 172 / 365)) := by
    calc (36.3655 : ℝ) ≤ 37.586 * 0.96753 := by norm_num
      _ ≤ _ := mul_le_mul hc2l hg1 (by norm_num) (by linarith)
  have hc3u : 24 * 60 / π * 0.082 * (1 + 0.033 * Real.cos (2 * π * 172 / 365)) ≤
      (36.3666 : ℝ) := by
    calc 24 * 60 / π * 0.082 * (1 + 0.033 * Real.cos (2 * π * 172 / 365)) ≤
        37.5862 * 0.96755 := mul_le_mul hc2u hg2 (by linarith) (by norm_num)
      _ ≤ (36.3666 : ℝ) := by norm_num
  have hfin1 : (36.3655 * 1.1112 : ℝ) ≤
      24 * 60 / π * 0.082 * (1 + 0.033 * Real.cos (2 * π * 172 / 365)) *
        (ws3517 * Real.sin (radians 35) * Real.sin decl172 +
          Real.cos (radians 35) * Real.cos decl172 * Real.sin ws3517) :=
    mul_le_mul hc3l hT1 (by norm_num) (by linarith)
  have hfin2 : 24 * 60 / π * 0.082 * (1 + 0.033 * Real.cos (2 * π * 172 / 365)) *
      (ws3517 * Real.sin (radians 35) * Real.sin decl172 +
        Real.cos (radians 35) * Real.cos decl172 * Real.sin ws3517) ≤
      (36.3666 * 1.1645 : ℝ) :=
    mul_le_mul hc3u hT2 (by linarith) (by norm_num)
  unfold ra3517
  constructor
  · linarith
  · linarith

/-! ### Evaluation lemmas for the embedded partial operations -/

lemma pyacos_ok (x : ℝ) (h1 : -1 ≤ x) (h2 : x ≤ 1) :
    pyacos x = .ok (Real.arccos x) := by
  unfold pyacos
  rw [if_neg]
  push_neg
  exact ⟨h1, h2⟩

lemma pyacos_err_low (x : ℝ) (h : x < -1) : pyacos x = .error .acosDomain := by
  unfold pyacos
  rw [if_pos (Or.inl h)]

lemma pysqrt_ok (x : ℝ) (h : 0 ≤ x) : pysqrt x = .ok (Real.sqrt x) := by
  unfold pysqrt
  rw [if_neg (not_lt.2 h)]

lemma pysqrt_err (x : ℝ) (h : x < 0) : pysqrt x = .error .sqrtDomain := by
  unfold pysqrt
  rw [if_pos h]

lemma pydiv_ok (a b : ℝ) (h : b ≠ 0) : pydiv a b = .ok (a / b) := by
  unfold pydiv
  rw [if_neg h]

lemma pydiv_err (a : ℝ) : pydiv a 0 = .error .divZero := by
  unfold pydiv
  rw [if_pos rfl]

/-- The sunset hour angle expression of `calculate_solar_radiation` as a
function of latitude and day-of-year. -/
def wsOf (lat doy : ℝ) : ℝ :=
  Real.arccos (-(Real.tan (radians lat) *
    Real.tan (0.409 * Real.sin (2 * π * doy / 365 - 1.39))))

/-- The `Ra` expression of `calculate_solar_radiation` as a function of
latitude and day-of-year. -/
def RaOf (lat doy : ℝ) : ℝ :=
  24 * 60 / π * 0.082 * (1 + 0.033 * Real.cos (2 * π * doy / 365)) *
    (wsOf lat doy * Real.sin (radians lat) *
        Real.sin (0.409 * Real.sin (2 * π * doy / 365 - 1.39)) +
      Real.cos (radians lat) * Real.cos (0.409 * Real.sin (2 * π * doy / 365 - 1.39)) *
        Real.sin (wsOf lat doy))

lemma RaOf_35_172 : RaOf 35 172 = ra3517 := rfl

/-- Successful Hargreaves evaluation of `calculate_solar_radiation`. -/
lemma calc_solar_hargreaves (lat doy tmax tmin hum : ℝ)
    (h1 : -1 ≤ -(Real.tan (radians lat) *
      Real.tan (0.409 * Real.sin (2 * π * doy / 365 - 1.39))))
    (h2 : -(Real.tan (radians lat) *
      Real.tan (0.409 * Real.sin (2 * π * doy / 365 - 1.39))) ≤ 1)
    (h3 : 0 ≤ tmax - tmin) :
    calculate_solar_radiation lat doy tmax tmin hum none =
      .ok (0.16 * Real.sqrt (tmax - tmin) * RaOf lat doy, RaOf lat doy) := by
  simp only [calculate_solar_radiation]
  rw [pyacos_ok _ h1 h2, pysqrt_ok _ h3]
  rfl

/-- Out-of-domain `acos` argument propagates as an error. -/
lemma calc_solar_acos_err (lat doy tmax tmin hum : ℝ) (s : Option ℝ)
    (h : -(Real.tan (radians lat) *
      Real.tan (0.409 * Real.sin (2 * π * doy / 365 - 1.39))) < -1) :
    calculate_solar_radiation lat doy tmax tmin hum s = .error .acosDomain := by
  simp only [calculate_solar_radiation]
  rw [pyacos_err_low _ h]

/-- A negative Hargreaves radicand propagates as an error. -/
lemma calc_solar_sqrt_err (lat doy tmax tmin hum : ℝ)
    (h1 : -1 ≤ -(Real.tan (radians lat) *
      Real.tan (0.409 * Real.sin (2 * π * doy / 365 - 1.39))))
    (h2 : -(Real.tan (radians lat) *
      Real.tan (0.409 * Real.sin (2 * π * doy / 365 - 1.39))) ≤ 1)
    (h3 : tmax - tmin < 0) :
    calculate_solar_radiation lat doy tmax tmin hum none = .error .sqrtDomain := by
  simp only [calculate_solar_radiation]
  rw [pyacos_ok _ h1 h2, pysqrt_err _ h3]

lemma radians80_bounds : (1.3962631 : ℝ) ≤ radians 80 ∧ radians 80 ≤ 1.3962636 := by
  unfold radians
  constructor <;> linarith [Real.pi_gt_d6, Real.pi_lt_d6]

lemma tan_radians80_ge : (4.9 : ℝ) ≤ Real.tan (radians 80) := by
  obtain ⟨h1, h2⟩ := radians80_bounds
  have hpl := Real.pi_gt_d6
  have hpu := Real.pi_lt_d6
  have hsin : (0.866 : ℝ) ≤ Real.sin (radians 80) := by
    have hm : Real.sin (π / 3) ≤ Real.sin (radians 80) :=
      Real.sin_le_sin_of_le_of_le_pi_div_two (by linarith) (by linarith) (by linarith)
    have h3 : (1.732 : ℝ) ≤ Real.sqrt 3 :=
      (Real.le_sqrt (by norm_num) (by norm_num)).mpr (by norm_num)
    rw [Real.sin_pi_div_three] at hm
    linarith
  have hu1 : (0.1745324 : ℝ) ≤ π / 2 - radians 80 := by linarith
  have hu2 : π / 2 - radians 80 ≤ (0.1745334 : ℝ) := by linarith
  have hid : Real.sin (π / 2 - radians 80) = Real.cos (radians 80) :=
    Real.sin_pi_div_two_sub (radians 80)
  have hcos_hi : Real.cos (radians 80) ≤ 0.1746 := by
    rw [← hid]
    have := Real.sin_lt (show (0 : ℝ) < π / 2 - radians 80 by linarith)
    linarith
  have hcos_pos : (0 : ℝ) < Real.cos (radians 80) := by
    rw [← hid]
    exact Real.sin_pos_of_pos_of_lt_pi (by linarith) (by linarith)
  rw [Real.tan_eq_sin_div_cos, le_div_iff₀ hcos_pos]
  nlinarith

/-- C3: with inverted temperatures (`temp_max = 10 < temp_min = 20`) the
Hargreaves branch evaluates `math.sqrt` on the negative difference `-10`
and raises a `ValueError`; no clamp to `Rs = 0` exists in the code
(latitude `0` keeps the upstream `acos` in its domain). -/
theorem c3_inverted_temps_error :
    calculate_solar_radiation 0 172 10 20 40 none = .error .sqrtDomain := by
  have hr0 : radians 0 = 0 := by unfold radians; ring
  have harg : -(Real.tan (radians 0) *
      Real.tan (0.409 * Real.sin (2 * π * 172 / 365 - 1.39))) = 0 := by
    rw [hr0, Real.tan_zero]
    ring
  exact calc_solar_sqrt_err 0 172 10 20 40
    (by rw [harg]; norm_num) (by rw [harg]; norm_num) (by norm_num)

/-- C4: at latitude `80`, day-of-year `172`, the argument of `acos` in
the sunset-hour-angle computation is below `-1`, so `math.acos` raises a
`ValueError`; no clamp of the argument to `[-1, 1]` exists in the code. -/
theorem c4_acos_domain_error :
    calculate_solar_radiation 80 172 30 15 40 none = .error .acosDomain := by
  apply calc_solar_acos_err
  have h80 := tan_radians80_ge
  have hd : (0.4315 : ℝ) ≤ Real.tan (0.409 * Real.sin (2 * π * 172 / 365 - 1.39)) :=
    tan_decl172_bounds.1
  nlinarith

/-! ### The end-to-end Penman-Monteith bound at the worked example -/

lemma clamp_bounds_aux (x : ℝ) (h1 : 4 ≤ x) (h2 : x ≤ 9) :
    4 ≤ max 0 x ∧ max 0 x ≤ 9 :=
  ⟨le_trans h1 (le_max_right 0 x), max_le (by norm_num) h2⟩

/-- Core interval computation for the end-to-end example: with the
abstract values `d` (delta), `s` (es) and `r` (solar radiation) in their
enclosures, the clamped Penman-Monteith quotient at `humidity = 40`,
`wind = 2` lies in `[4, 9]`. -/
lemma c6core (d s r : ℝ) (hd1 : 0.16513 ≤ d) (hd2 : d ≤ 0.16581)
    (hs1 : 2.9602 ≤ s) (hs2 : s ≤ 2.9863) (hr1 : 25.03 ≤ r) (hr2 : r ≤ 26.25) :
    4 ≤ max 0 ((0.408 * d * (r * 0.77 - 0) +
        67.3645 * 900 / (22.5 + 273) * 2 * (s - s * 40 / 100)) /
      (d + 67.3645 * (1 + 0.34 * 2))) ∧
    max 0 ((0.408 * d * (r * 0.77 - 0) +
        67.3645 * 900 / (22.5 + 273) * 2 * (s - s * 40 / 100)) /
      (d + 67.3645 * (1 + 0.34 * 2))) ≤ 9 := by
  have hD : (0 : ℝ) < d + 67.3645 * (1 + 0.34 * 2) := by linarith
  apply clamp_bounds_aux
  · rw [le_div_iff₀ hD]
    nlinarith [mul_nonneg (show (0 : ℝ) ≤ d - 0.16513 by linarith)
      (show (0 : ℝ) ≤ r - 25.03 by linarith)]
  · rw [div_le_iff₀ hD]
    nlinarith [mul_nonneg (show (0 : ℝ) ≤ 0.16581 - d by linarith)
      (show (0 : ℝ) ≤ 26.25 - r by linarith)]

lemma et0_c6 (rs : ℝ) (hr1 : 25.03 ≤ rs) (hr2 : rs ≤ 26.25) :
    4 ≤ penman_monteith_et0 22.5 30 15 40 2 rs 0 35 ∧
    penman_monteith_et0 22.5 30 15 40 2 rs 0 35 ≤ 9 := by
  obtain ⟨hd1, hd2⟩ := delta225_bounds
  obtain ⟨hs1, hs2⟩ := es3015_bounds
  simp only [penman_monteith_et0, rawEt0]
  rw [gamma0_eq]
  exact c6core _ _ _ hd1 hd2 hs1 hs2 hr1 hr2

lemma rs3517_bounds : (25.03 : ℝ) ≤ 0.16 * Real.sqrt (30 - 15) * ra3517 ∧
    0.16 * Real.sqrt (30 - 15) * ra3517 ≤ 26.25 := by
  rw [show ((30 : ℝ) - 15) = 15 by norm_num]
  obtain ⟨hq1, hq2⟩ := sqrt15_bounds
  obtain ⟨hr1, hr2⟩ := ra3517_bounds
  have hsn : (0 : ℝ) ≤ Real.sqrt 15 := Real.sqrt_nonneg 15
  constructor
  · calc (25.03 : ℝ) ≤ 0.16 * 3.8729 * 40.40 := by norm_num
      _ ≤ 0.16 * Real.sqrt 15 * ra3517 :=
        mul_le_mul (by nlinarith) hr1 (by norm_num) (by nlinarith)
  · calc 0.16 * Real.sqrt 15 * ra3517 ≤ 0.16 * 3.8730 * 42.35 :=
        mul_le_mul (by nlinarith) hr2 (by linarith) (by norm_num)
      _ ≤ 26.25 := by norm_num

/-- Successful evaluation of the solar step at the worked example. -/
lemma solar3517_ok :
    calculate_solar_radiation 35 172 30 15 40 none =
      .ok (0.16 * Real.sqrt (30 - 15) * ra3517, ra3517) := by
  have hp1 : (0.2973 : ℝ) ≤ Real.tan (radians 35) *
      Real.tan (0.409 * Real.sin (2 * π * 172 / 365 - 1.39)) := prod3517_bounds.1
  have hp2 : Real.tan (radians 35) *
      Real.tan (0.409 * Real.sin (2 * π * 172 / 365 - 1.39)) ≤ 0.3141 := prod3517_bounds.2
  have hok := calc_solar_hargreaves 35 172 30 15 40
    (by linarith) (by linarith) (by norm_num)
  rw [RaOf_35_172] at hok
  exact hok

/-- C6: at latitude `35`, day-of-year `172`, `temp_max = 30`,
`temp_min = 15`, `humidity = 40`, `wind_speed = 2`, elevation `0`, the
pipeline computes `Ra` exactly per the spec's Step A formula, the
Hargreaves solar radiation is `0.16 · √15 · Ra`, and the resulting ET₀
(at the pipeline's `temp_mean = (30+15)/2`) lies in `[4, 9]` mm/day. -/
theorem c6_end_to_end :
    calculate_solar_radiation 35 172 30 15 40 none =
      .ok (0.16 * Real.sqrt (30 - 15) * ra3517, ra3517) ∧
    ra3517 = spec_stepA_Ra 35 172 ∧
    0.16 * Real.sqrt (30 - 15) * ra3517 = 0.16 * Real.sqrt 15 * spec_stepA_Ra 35 172 ∧
    4 ≤ penman_monteith_et0 ((30 + 15) / 2) 30 15 40 2
      (0.16 * Real.sqrt (30 - 15) * ra3517) 0 35 ∧
    penman_monteith_et0 ((30 + 15) / 2) 30 15 40 2
      (0.16 * Real.sqrt (30 - 15) * ra3517) 0 35 ≤ 9 := by
  obtain ⟨hrs1, hrs2⟩ := rs3517_bounds
  have het := et0_c6 _ hrs1 hrs2
  rw [show ((30 : ℝ) + 15) / 2 = 22.5 by norm_num]
  refine ⟨solar3517_ok, rfl, ?_, het.1, het.2⟩
  rw [show ((30 : ℝ) - 15) = 15 by norm_num]
  rfl

/-! ### Wind-speed monotonicity analysis -/

/-- Core interval computation for the wind counterexample: at
`humidity = 99.99`, `solar_radiation = 30`, the clamped quotient at
wind `1` is strictly below the one at wind `0`. -/
lemma c7core (d s : ℝ) (hd1 : 0.16513 ≤ d) (hd2 : d ≤ 0.16581)
    (hs1 : 2.9602 ≤ s) (hs2 : s ≤ 2.9863) :
    max 0 ((0.408 * d * (30 * 0.77 - 0) +
        67.3645 * 900 / (22.5 + 273) * 1 * (s - s * 99.99 / 100)) /
      (d + 67.3645 * (1 + 0.34 * 1))) <
    max 0 ((0.408 * d * (30 * 0.77 - 0) +
        67.3645 * 900 / (22.5 + 273) * 0 * (s - s * 99.99 / 100)) /
      (d + 67.3645 * (1 + 0.34 * 0))) := by
  have hD1 : (0 : ℝ) < d + 67.3645 * (1 + 0.34 * 1) := by linarith
  have hD0 : (0 : ℝ) < d + 67.3645 * (1 + 0.34 * 0) := by linarith
  have hN1 : (0 : ℝ) ≤ 0.408 * d * (30 * 0.77 - 0) +
      67.3645 * 900 / (22.5 + 273) * 1 * (s - s * 99.99 / 100) := by nlinarith
  have hN0 : (0 : ℝ) ≤ 0.408 * d * (30 * 0.77 - 0) +
      67.3645 * 900 / (22.5 + 273) * 0 * (s - s * 99.99 / 100) := by nlinarith
  rw [max_eq_right (div_nonneg hN1 hD1.le), max_eq_right (div_nonneg hN0 hD0.le),
    div_lt_div_iff₀ hD1 hD0]
  nlinarith [mul_nonneg (show (0 : ℝ) ≤ 0.16581 - d by linarith)
      (show (0 : ℝ) ≤ 2.9863 - s by linarith),
    mul_nonneg (show (0 : ℝ) ≤ d - 0.16513 by linarith)
      (show (0 : ℝ) ≤ s - 2.9602 by linarith)]

/-- C7 counterexample: all parameters of the claim's quantification are
satisfied (`humidity = 99.99 < 100`, hence `es > ea`; `0 ≤ u1 = 0 < u2 = 1`;
everything else fixed), yet ET₀ strictly decreases when the wind speed
rises from `0` to `1`. -/
theorem c7_counterexample :
    (99.99 : ℝ) < 100 ∧
    penman_monteith_et0 22.5 30 15 99.99 1 30 0 35 <
      penman_monteith_et0 22.5 30 15 99.99 0 30 0 35 := by
  refine ⟨by norm_num, ?_⟩
  obtain ⟨hd1, hd2⟩ := delta225_bounds
  obtain ⟨hs1, hs2⟩ := es3015_bounds
  simp only [penman_monteith_et0, rawEt0]
  rw [gamma0_eq]
  exact c7core _ _ hd1 hd2 hs1 hs2

/-- Abstract monotonicity of the clamped homography
`u ↦ max 0 ((A + B u)/(C + E u))` when the cross condition `A E < B C`
holds. -/
lemma mono_core (A B Cc E u1 u2 : ℝ) (hA : 0 ≤ A) (hB : 0 < B) (hC : 0 < Cc)
    (hE : 0 < E) (hu1 : 0 ≤ u1) (hu : u1 < u2) (hside : A * E < B * Cc) :
    max 0 ((A + B * u1) / (Cc + E * u1)) < max 0 ((A + B * u2) / (Cc + E * u2)) := by
  have hD1 : 0 < Cc + E * u1 := by nlinarith
  have hD2 : 0 < Cc + E * u2 := by nlinarith
  have hN1 : 0 ≤ A + B * u1 := by nlinarith
  have hN2 : 0 ≤ A + B * u2 := by nlinarith
  rw [max_eq_right (div_nonneg hN1 hD1.le), max_eq_right (div_nonneg hN2 hD2.le),
    div_lt_div_iff₀ hD1 hD2]
  nlinarith [mul_pos (sub_pos.2 hu) (sub_pos.2 hside)]

/-- The monotonicity argument shaped exactly like the body of
`rawEt0`. -/
lemma mono_shape (g d es ea rn tm u1 u2 : ℝ) (hd : 0 < d) (hg : 0 < g)
    (htm : 0 < tm + 273) (hes : 0 < es - ea) (hrn : 0 ≤ rn)
    (hu1 : 0 ≤ u1) (hu : u1 < u2)
    (hside : 0.408 * d * rn * (0.34 * g) < g * 900 / (tm + 273) * (es - ea) * (d + g)) :
    max 0 ((0.408 * d * (rn - 0) + g * 900 / (tm + 273) * u1 * (es - ea)) /
      (d + g * (1 + 0.34 * u1))) <
    max 0 ((0.408 * d * (rn - 0) + g * 900 / (tm + 273) * u2 * (es - ea)) /
      (d + g * (1 + 0.34 * u2))) := by
  have e1 : 0.408 * d * (rn - 0) + g * 900 / (tm + 273) * u1 * (es - ea) =
      0.408 * d * (rn - 0) + g * 900 / (tm + 273) * (es - ea) * u1 := by ring
  have e2 : 0.408 * d * (rn - 0) + g * 900 / (tm + 273) * u2 * (es - ea) =
      0.408 * d * (rn - 0) + g * 900 / (tm + 273) * (es - ea) * u2 := by ring
  have e3 : d + g * (1 + 0.34 * u1) = d + g + g * 0.34 * u1 := by ring
  have e4 : d + g * (1 + 0.34 * u2) = d + g + g * 0.34 * u2 := by ring
  rw [e1, e2, e3, e4]
  have hB : 0 < g * 900 / (tm + 273) * (es - ea) :=
    mul_pos (div_pos (mul_pos hg (by norm_num)) htm) hes
  have hA : 0 ≤ 0.408 * d * (rn - 0) := by nlinarith
  have hside2 : 0.408 * d * (rn - 0) * (g * 0.34) <
      g * 900 / (tm + 273) * (es - ea) * (d + g) := by
    have : 0.408 * d * (rn - 0) * (g * 0.34) = 0.408 * d * rn * (0.34 * g) := by ring
    linarith [this ▸ hside]
  exact mono_core _ _ _ _ u1 u2 hA hB (by linarith) (by nlinarith) hu1 hu hside2

/-- The psychrometric-constant expression of `penman_monteith_et0`
(line 210 of `app.py`). -/
def gammaPM (elevation : ℝ) : ℝ :=
  0.665 * (101.3 * ((293 - 0.0065 * elevation) / 293) ^ (5.26 : ℝ))

/-- The saturation-vapor-pressure expression of `penman_monteith_et0`
(lines 213-214 of `app.py`). -/
def svpPM (t : ℝ) : ℝ := 0.6108 * Real.exp (17.27 * t / (t + 237.3))

/-- The `es` expression of `penman_monteith_et0` (line 215). -/
def esPM (tmax tmin : ℝ) : ℝ := (svpPM tmax + svpPM tmin) / 2

/-- The `delta` expression of `penman_monteith_et0` (line 221). -/
def deltaPM (t : ℝ) : ℝ :=
  4098 * (0.6108 * Real.exp (17.27 * t / (t + 237.3))) / ((t + 237.3) ^ 2)

lemma gammaPM_pos (e : ℝ) (h : 0.0065 * e < 293) : 0 < gammaPM e := by
  unfold gammaPM
  have hb : (0 : ℝ) < (293 - 0.0065 * e) / 293 := by
    apply div_pos (by linarith) (by norm_num)
  have := Real.rpow_pos_of_pos hb (5.26 : ℝ)
  nlinarith

lemma deltaPM_pos (t : ℝ) (h : t ≠ -237.3) : 0 < deltaPM t := by
  unfold deltaPM
  apply div_pos (by positivity)
  apply sq_pos_of_ne_zero
  intro heq
  exact h (by linarith)

lemma esPM_pos (a b : ℝ) : 0 < esPM a b := by
  unfold esPM svpPM
  positivity

/-- C7 (amended): holding everything but the wind speed fixed, with
`humidity < 100` (so `es > ea`), nonnegative solar radiation, admissible
elevation and temperatures away from the singularities, ET₀ is strictly
increasing in `wind_speed` on `0 ≤ u1 < u2` PROVIDED the aerodynamic
cross-term dominates the radiation cross-term:
`0.408·Δ·Rn·(0.34·γ) < (γ·900/(T+273))·(es − ea)·(Δ + γ)`.
This side condition holds in particular whenever `solar_radiation = 0`;
the unamended claim fails at high humidity and radiation
(see the counterexample). -/
theorem c7_monotone_amended (tm tmax tmin hum rs elev lat u1 u2 : ℝ)
    (htm : -273 < tm) (htm2 : tm ≠ -237.3) (hh : hum < 100) (hrs : 0 ≤ rs)
    (helev : 0.0065 * elev < 293) (hu1 : 0 ≤ u1) (hu : u1 < u2)
    (hside : 0.408 * deltaPM tm * (rs * 0.77) * (0.34 * gammaPM elev) <
      gammaPM elev * 900 / (tm + 273) *
        (esPM tmax tmin - esPM tmax tmin * hum / 100) *
        (deltaPM tm + gammaPM elev)) :
    penman_monteith_et0 tm tmax tmin hum u1 rs elev lat <
      penman_monteith_et0 tm tmax tmin hum u2 rs elev lat := by
  have hg : 0 < gammaPM elev := gammaPM_pos elev helev
  have hd : 0 < deltaPM tm := deltaPM_pos tm htm2
  have hes : 0 < esPM tmax tmin := esPM_pos tmax tmin
  have hesea : 0 < esPM tmax tmin - esPM tmax tmin * hum / 100 := by nlinarith
  simp only [penman_monteith_et0, rawEt0]
  exact mono_shape (gammaPM elev) (deltaPM tm) (esPM tmax tmin)
    (esPM tmax tmin * hum / 100) (rs * 0.77) tm u1 u2
    hd hg (by linarith) hesea (by nlinarith) hu1 hu hside

/-- Witness for the amended C7 theorem at a concrete admissible input
(`solar_radiation = 0` makes the side condition trivial). -/
theorem c7_witness :
    penman_monteith_et0 20 25 15 40 0 0 0 35 < penman_monteith_et0 20 25 15 40 1 0 0 35 := by
  apply c7_monotone_amended 20 25 15 40 0 0 35 0 1
    (by norm_num) (by norm_num) (by norm_num) (by norm_num) (by norm_num)
    (by norm_num) (by norm_num)
  have hg : 0 < gammaPM 0 := gammaPM_pos 0 (by norm_num)
  have hd : 0 < deltaPM 20 := deltaPM_pos 20 (by norm_num)
  have hes : 0 < esPM 25 15 := esPM_pos 25 15
  have h0 : 0.408 * deltaPM 20 * (0 * 0.77) * (0.34 * gammaPM 0) = 0 := by ring
  rw [h0]
  have h293 : (0 : ℝ) < 20 + 273 := by norm_num
  apply mul_pos (mul_pos (div_pos (mul_pos hg (by norm_num)) h293) (by nlinarith))
  linarith

/-- C1: the code multiplies by `0.665` where the spec (FAO-56) has
`0.665e-3`: at elevation `0` the code's psychrometric constant is
`67.3645` while the spec formula yields `0.0673645`, a factor-1000
discrepancy, so the returned ET₀ is not the Step C value. -/
theorem c1_gamma_mismatch :
    gammaPM 0 = 67.3645 ∧ spec_gamma 0 = 0.0673645 ∧ gammaPM 0 ≠ spec_gamma 0 := by
  have h1 : gammaPM 0 = 67.3645 := gamma0_eq
  have h2 : spec_gamma 0 = 0.0673645 := by
    unfold spec_gamma
    rw [show ((293 - 0.0065 * 0) / 293 : ℝ) = 1 by norm_num, Real.one_rpow]
    norm_num
  exact ⟨h1, h2, by rw [h1, h2]; norm_num⟩

/-- Successful evaluation of `penmanRun`: away from the singular
temperatures and with nonzero final denominator, no division raises and
the result is the clamped quotient of the total model. -/
lemma penmanRun_ok (tm tmax tmin hum wind rs elev lat : ℝ)
    (h1 : tmax ≠ -237.3) (h2 : tmin ≠ -237.3) (h3 : tm ≠ -237.3) (h4 : tm ≠ -273)
    (h5 : deltaPM tm + gammaPM elev * (1 + 0.34 * wind) ≠ 0) :
    penmanRun tm tmax tmin hum wind rs elev lat =
      .ok (penman_monteith_et0 tm tmax tmin hum wind rs elev lat) := by
  have e1 : tmax + 237.3 ≠ 0 := fun h => h1 (by linarith)
  have e2 : tmin + 237.3 ≠ 0 := fun h => h2 (by linarith)
  have e3 : tm + 237.3 ≠ 0 := fun h => h3 (by linarith)
  have e3b : (tm + 237.3) ^ 2 ≠ 0 := pow_ne_zero 2 e3
  have e4 : tm + 273 ≠ 0 := fun h => h4 (by linarith)
  have h5' : 4098 * (0.6108 * Real.exp (17.27 * tm / (tm + 237.3))) / ((tm + 237.3) ^ 2) +
      0.665 * (101.3 * ((293 - 0.0065 * elev) / 293) ^ (5.26 : ℝ)) * (1 + 0.34 * wind) ≠ 0 := h5
  simp only [penmanRun, pydiv, if_neg e1, if_neg e2, if_neg e3, if_neg e3b, if_neg e4,
    if_neg h5']
  rfl

/-- C2: away from the singular temperatures and with nonzero final
denominator, `penman_monteith_et0` raises nothing and returns the raw
Penman-Monteith quotient clamped at zero; the result is a real number
`≥ 0`, and a negative raw value yields `0` rather than an error. -/
theorem c2_et0_nonneg_clamped (tm tmax tmin hum wind rs elev lat : ℝ)
    (h1 : tmax ≠ -237.3) (h2 : tmin ≠ -237.3) (h3 : tm ≠ -237.3) (h4 : tm ≠ -273)
    (h5 : deltaPM tm + gammaPM elev * (1 + 0.34 * wind) ≠ 0) :
    penmanRun tm tmax tmin hum wind rs elev lat =
      .ok (penman_monteith_et0 tm tmax tmin hum wind rs elev lat) ∧
    0 ≤ penman_monteith_et0 tm tmax tmin hum wind rs elev lat ∧
    (rawEt0 tm tmax tmin hum wind rs elev lat < 0 →
      penman_monteith_et0 tm tmax tmin hum wind rs elev lat = 0) :=
  ⟨penmanRun_ok tm tmax tmin hum wind rs elev lat h1 h2 h3 h4 h5,
    le_max_left 0 _, fun h => max_eq_left h.le⟩

/-- Witness for C2 at a concrete input whose raw Penman-Monteith value is
negative (`humidity = 110`, `solar_radiation = 0`): no error is raised
and the clamped result is exactly `0`. -/
theorem c2_witness :
    penmanRun 22.5 30 15 110 2 0 0 35 =
      .ok (penman_monteith_et0 22.5 30 15 110 2 0 0 35) ∧
    penman_monteith_et0 22.5 30 15 110 2 0 0 35 = 0 := by
  have hden : deltaPM 22.5 + gammaPM 0 * (1 + 0.34 * 2) ≠ 0 := by
    have hd := deltaPM_pos 22.5 (by norm_num)
    have hg := gammaPM_pos 0 (by norm_num)
    positivity
  have h := c2_et0_nonneg_clamped 22.5 30 15 110 2 0 0 35
    (by norm_num) (by norm_num) (by norm_num) (by norm_num) hden
  have hraw : rawEt0 22.5 30 15 110 2 0 0 35 < 0 := by
    obtain ⟨hd1, hd2⟩ := delta225_bounds
    obtain ⟨hs1, hs2⟩ := es3015_bounds
    simp only [rawEt0]
    rw [gamma0_eq]
    apply div_neg_of_neg_of_pos
    · nlinarith
    · nlinarith
  exact ⟨h.1, h.2.2 hraw⟩

/-- C5: at the degenerate inputs `temp_mean = -237.3` (zero divisor in the
slope formula) and `temp_mean = -273` (zero divisor in the aerodynamic
term) the computation fails with a division error — the realisation of
the spec's DomainError — and returns no value at all. -/
theorem c5_singularities_error (tmax tmin hum wind rs elev lat : ℝ)
    (h1 : tmax ≠ -237.3) (h2 : tmin ≠ -237.3) :
    penmanRun (-237.3) tmax tmin hum wind rs elev lat = .error .divZero ∧
    penmanRun (-273) tmax tmin hum wind rs elev lat = .error .divZero := by
  have e1 : tmax + 237.3 ≠ 0 := fun h => h1 (by linarith)
  have e2 : tmin + 237.3 ≠ 0 := fun h => h2 (by linarith)
  constructor
  · have e3 : (-237.3 : ℝ) + 237.3 = 0 := by norm_num
    simp only [penmanRun, pydiv, if_neg e1, if_neg e2, if_pos e3]
  · have e3 : (-273 : ℝ) + 237.3 ≠ 0 := by norm_num
    have e3b : ((-273 : ℝ) + 237.3) ^ 2 ≠ 0 := pow_ne_zero 2 e3
    have e4 : (-273 : ℝ) + 273 = 0 := by norm_num
    simp only [penmanRun, pydiv, if_neg e1, if_neg e2, if_neg e3, if_neg e3b, if_pos e4]

/-- Witness for C5 at concrete surrounding inputs. -/
theorem c5_witness :
    penmanRun (-237.3) 30 15 40 2 25 0 35 = .error .divZero ∧
    penmanRun (-273) 30 15 40 2 25 0 35 = .error .divZero :=
  c5_singularities_error 30 15 40 2 25 0 35 (by norm_num) (by norm_num)

/-- C10: the `lat` parameter of `penman_monteith_et0` is never read, so
two calls differing only in `lat` return identical results (and raise
identically in the exception-aware model). -/
theorem c10_lat_no_influence (tm tmax tmin hum wind rs elev lat1 lat2 : ℝ) :
    penman_monteith_et0 tm tmax tmin hum wind rs elev lat1 =
      penman_monteith_et0 tm tmax tmin hum wind rs elev lat2 ∧
    penmanRun tm tmax tmin hum wind rs elev lat1 =
      penmanRun tm tmax tmin hum wind rs elev lat2 :=
  ⟨rfl, rfl⟩

/-! ### Aggregation claims -/

/-- C9: for a forecast day, the aggregated humidity is the arithmetic
mean of the samples that report the field, and the aggregated wind speed
is the arithmetic mean of the per-sample km/h values converted by
`0.277778`; the defaults `50` and `2` are used exactly when the
respective field is absent from every sample of the day (`forecastRow`
feeds these two values into the solar and Penman-Monteith steps). -/
theorem c9_humidity_wind_aggregation (day : DayWeather) :
    ((∀ h ∈ day.hourly, h.humidity = none) → (forecastHumWind day).1 = 50) ∧
    ((∀ h ∈ day.hourly, h.windspeedKmph = none) → (forecastHumWind day).2 = 2) ∧
    (day.hourly.filterMap HourSample.humidity ≠ [] →
      (forecastHumWind day).1 = (day.hourly.filterMap HourSample.humidity).sum /
        ((day.hourly.filterMap HourSample.humidity).length : ℝ)) ∧
    ((day.hourly.filterMap HourSample.windspeedKmph).map (fun w => w * 0.277778) ≠ [] →
      (forecastHumWind day).2 =
        ((day.hourly.filterMap HourSample.windspeedKmph).map (fun w => w * 0.277778)).sum /
          (((day.hourly.filterMap HourSample.windspeedKmph).map
            (fun w => w * 0.277778)).length : ℝ)) := by
  obtain ⟨dt, doy, mx, mn, hours⟩ := day
  cases hours with
  | nil =>
    refine ⟨fun _ => rfl, fun _ => rfl, fun hne => absurd rfl hne, fun hne => ?_⟩
    exact absurd rfl hne
  | cons h t =>
    refine ⟨?_, ?_, ?_, ?_⟩
    · intro hall
      have hnil : (h :: t).filterMap HourSample.humidity = [] :=
        List.filterMap_eq_nil_iff.mpr hall
      simp only [forecastHumWind, hnil, List.isEmpty_nil, if_true]
    · intro hall
      have hnil : (h :: t).filterMap HourSample.windspeedKmph = [] :=
        List.filterMap_eq_nil_iff.mpr hall
      simp only [forecastHumWind, hnil, List.map_nil, List.isEmpty_nil, if_true]
    · intro hne
      have hfalse : ((h :: t).filterMap HourSample.humidity).isEmpty = false := by
        simp [List.isEmpty_iff, hne]
      simp only [forecastHumWind, hfalse, Bool.false_eq_true, if_false]
    · intro hne
      have hfalse : (((h :: t).filterMap HourSample.windspeedKmph).map
          (fun w => w * 0.277778)).isEmpty = false := by
        simp [List.isEmpty_iff, hne]
      simp only [forecastHumWind, hfalse, Bool.false_eq_true, if_false]

/-- Two concrete days for the C9 witness: one with no humidity or wind
samples at all, one with mixed field presence. -/
def dayAllAbsent : DayWeather :=
  { date := "2026-06-22", dayOfYear := 173, maxtempC := 25, mintempC := 15,
    hourly := [⟨none, none⟩, ⟨none, none⟩] }

def dayMixed : DayWeather :=
  { date := "2026-06-23", dayOfYear := 174, maxtempC := 25, mintempC := 15,
    hourly := [⟨some 30, some 10⟩, ⟨some 50, none⟩] }

/-- Witness for C9: the defaults appear exactly on the all-absent day,
and the means (with the km/h conversion) on the mixed day. -/
theorem c9_witness :
    (forecastHumWind dayAllAbsent).1 = 50 ∧ (forecastHumWind dayAllAbsent).2 = 2 ∧
    (forecastHumWind dayMixed).1 = (30 + 50) / 2 ∧
    (forecastHumWind dayMixed).2 = 10 * 0.277778 := by
  obtain ⟨a1, a2, -, -⟩ := c9_humidity_wind_aggregation dayAllAbsent
  obtain ⟨-, -, b3, b4⟩ := c9_humidity_wind_aggregation dayMixed
  have hha : ∀ h ∈ dayAllAbsent.hourly, h.humidity = none := by
    intro h hmem
    simp only [dayAllAbsent, List.mem_cons, List.not_mem_nil, or_false] at hmem
    rcases hmem with rfl | rfl <;> rfl
  have hwa : ∀ h ∈ dayAllAbsent.hourly, h.windspeedKmph = none := by
    intro h hmem
    simp only [dayAllAbsent, List.mem_cons, List.not_mem_nil, or_false] at hmem
    rcases hmem with rfl | rfl <;> rfl
  have hfm : dayMixed.hourly.filterMap HourSample.humidity = [30, 50] := rfl
  have hwm : dayMixed.hourly.filterMap HourSample.windspeedKmph = [10] := rfl
  refine ⟨a1 hha, a2 hwa, ?_, ?_⟩
  · rw [b3 (by rw [hfm]; exact List.cons_ne_nil _ _), hfm]
    norm_num
  · rw [b4 (by rw [hwm]; simp), hwm]
    norm_num

/-! ### The today-row provenance claim -/

lemma pyRound1_tenth (n : ℤ) : pyRound1 ((n : ℝ) / 10) = (n : ℝ) / 10 := by
  unfold pyRound1 round2even
  have h : ((n : ℝ) / 10) * 10 = (n : ℝ) := by field_simp
  rw [h, Int.fract_intCast, if_neg (by norm_num), round_intCast]

lemma pyRound1_225 : pyRound1 ((30 + 15) / 2 : ℝ) = 22.5 := by
  rw [show ((30 + 15) / 2 : ℝ) = ((225 : ℤ) : ℝ) / 10 by push_cast; norm_num,
    pyRound1_tenth]
  push_cast
  norm_num

lemma pyRound1_99 : pyRound1 (99 : ℝ) = 99 := by
  rw [show (99 : ℝ) = ((990 : ℤ) : ℝ) / 10 by push_cast; norm_num, pyRound1_tenth]

/-- C8 (amended): whenever the payload carries a current-conditions
override, the today entry takes `humidity` and `wind_speed` directly from
the override reading (wind converted by `0.277778`), `temp_max` and
`temp_min` from the first forecast day's envelope, and `temp_mean` is the
envelope average `(temp_max + temp_min)/2` — NOT the override's own
temperature, which the code never reads. -/
theorem c8_today_fields_amended
    (wd : WeatherData) (c : CurrentCondition) (cs : List CurrentCondition)
    (w : DayWeather) (ws : List DayWeather) (d : String) (t : ℝ)
    (rows : List ResultRow) (r : ResultRow)
    (hc : wd.current_condition = some (c :: cs))
    (hw : wd.weather = w :: ws)
    (hok : process_weather_data d t wd = .ok rows)
    (hr : todayRow (latOf wd) d t c w = .ok r) :
    rows.head? = some r ∧
    r.tempMax = pyRound1 w.maxtempC ∧
    r.tempMin = pyRound1 w.mintempC ∧
    r.tempMean = pyRound1 ((w.maxtempC + w.mintempC) / 2) ∧
    r.humidity = pyRound1 c.humidity ∧
    r.windSpeed = pyRound1 (c.windspeedKmph * 0.277778) := by
  have hhead : rows.head? = some r := by
    simp only [process_weather_data, hc, hw, hr] at hok
    cases hfr : forecastRows (latOf wd) (((w :: ws).take 14).drop 1) with
    | error e =>
      simp only [hfr] at hok
      exact Except.noConfusion hok
    | ok fr =>
      simp only [hfr, Except.ok.injEq] at hok
      rw [← hok]
      rfl
  refine ⟨hhead, ?_⟩
  simp only [todayRow] at hr
  cases hsol : calculate_solar_radiation (latOf wd) t w.maxtempC w.mintempC c.humidity none with
  | error e =>
    simp only [hsol] at hr
    exact Except.noConfusion hr
  | ok p =>
    obtain ⟨srad, ra⟩ := p
    simp only [hsol] at hr
    cases hpm : penmanRun ((w.maxtempC + w.mintempC) / 2) w.maxtempC w.mintempC
        c.humidity (c.windspeedKmph * 0.277778) srad 0 (latOf wd) with
    | error e =>
      simp only [hpm] at hr
      exact Except.noConfusion hr
    | ok v =>
      simp only [hpm, Except.ok.injEq] at hr
      rw [← hr]
      exact ⟨rfl, rfl, rfl, rfl, rfl⟩

/-- Concrete payload family for C8: the current-conditions temperature
`tc` varies, everything else fixed. -/
def w0 : DayWeather :=
  { date := "2026-06-21", dayOfYear := 172, maxtempC := 30, mintempC := 15, hourly := [] }

def exDate : String := "2026-06-21"

def currentOf (tc : ℝ) : CurrentCondition :=
  { temp_C := tc, humidity := 40, windspeedKmph := 7.2 }

def wdOf (tc : ℝ) : WeatherData :=
  { nearest_area := [⟨35, 51⟩], current_condition := some [currentOf tc],
    weather := [w0] }

/-- The today row produced for `wdOf tc` (independent of `tc`). -/
def recEx : ResultRow :=
  { date := exDate, tempMean := pyRound1 ((30 + 15) / 2), tempMax := pyRound1 30,
    tempMin := pyRound1 15, humidity := pyRound1 40,
    windSpeed := pyRound1 (7.2 * 0.277778),
    solarRadiation := pyRound2 (0.16 * Real.sqrt (30 - 15) * ra3517),
    et0 := pyRound2 (penman_monteith_et0 ((30 + 15) / 2) 30 15 40 (7.2 * 0.277778)
      (0.16 * Real.sqrt (30 - 15) * ra3517) 0 35) }

lemma todayRow_eval (tc : ℝ) :
    todayRow 35 exDate 172 (currentOf tc) w0 = .ok recEx := by
  have hden : deltaPM ((30 + 15) / 2) + gammaPM 0 * (1 + 0.34 * (7.2 * 0.277778)) ≠ 0 := by
    have hd := deltaPM_pos ((30 + 15) / 2) (by norm_num)
    have hg := gammaPM_pos 0 (by norm_num)
    have hwp : (0 : ℝ) < 1 + 0.34 * (7.2 * 0.277778) := by norm_num
    exact ne_of_gt (by nlinarith)
  have hpm := penmanRun_ok ((30 + 15) / 2) 30 15 40 (7.2 * 0.277778)
    (0.16 * Real.sqrt (30 - 15) * ra3517) 0 35
    (by norm_num) (by norm_num) (by norm_num) (by norm_num) hden
  simp only [todayRow, currentOf, w0, solar3517_ok, hpm]
  rfl

lemma process_eval (tc : ℝ) :
    process_weather_data exDate 172 (wdOf tc) = .ok [recEx] := by
  have hld : ((w0 :: ([] : List DayWeather)).take 14).drop 1 = [] := rfl
  simp only [process_weather_data, wdOf, latOf, todayRow_eval tc, hld, forecastRows]
  rfl

/-- C8 counterexample: with an override reading whose temperature is
`99`, the produced today entry has `temp_mean = 22.5` (the envelope
average), not the override temperature — refuting the claim that
`temp_mean` is taken directly from the override reading. -/
theorem c8_counterexample :
    ∃ rows r rest, process_weather_data exDate 172 (wdOf 99) = .ok rows ∧
      rows = r :: rest ∧
      r.tempMean = 22.5 ∧
      pyRound1 (currentOf 99).temp_C = 99 ∧
      r.tempMean ≠ pyRound1 (currentOf 99).temp_C := by
  refine ⟨[recEx], recEx, [], process_eval 99, rfl, ?_, ?_, ?_⟩
  · show pyRound1 ((30 + 15) / 2) = 22.5
    exact pyRound1_225
  · show pyRound1 (99 : ℝ) = 99
    exact pyRound1_99
  · show pyRound1 ((30 + 15) / 2 : ℝ) ≠ pyRound1 ((99 : ℝ))
    rw [pyRound1_225, pyRound1_99]
    norm_num

/-- Witness for the amended C8 theorem at the concrete payload with
override temperature `25`. -/
theorem c8_witness :
    ∃ rows r, process_weather_data exDate 172 (wdOf 25) = .ok rows ∧
      todayRow (latOf (wdOf 25)) exDate 172 (currentOf 25) w0 = .ok r ∧
      rows.head? = some r ∧
      r.tempMax = pyRound1 w0.maxtempC ∧
      r.tempMin = pyRound1 w0.mintempC ∧
      r.tempMean = pyRound1 ((w0.maxtempC + w0.mintempC) / 2) ∧
      r.humidity = pyRound1 (currentOf 25).humidity ∧
      r.windSpeed = pyRound1 ((currentOf 25).windspeedKmph * 0.277778) := by
  have hrow : todayRow (latOf (wdOf 25)) exDate 172 (currentOf 25) w0 = .ok recEx :=
    todayRow_eval 25
  have h := c8_today_fields_amended (wdOf 25) (currentOf 25) [] w0 [] exDate 172
    [recEx] recEx rfl rfl (process_eval 25) hrow
  exact ⟨[recEx], recEx, process_eval 25, hrow, h.1, h.2.1, h.2.2.1, h.2.2.2.1,
    h.2.2.2.2.1, h.2.2.2.2.2⟩

end ETO
